import Mathlib

/-!
Verification of the calibration engine in `src/client/app/utils/calibration.ts`
(the OED map-calibration utility).

Shallow embedding conventions:
* JS `number` values that the algorithm manipulates are idealised as `ℚ`
  (exact rational arithmetic); the one place where IEEE special values
  (`±Infinity`, `NaN`) matter — unguarded division in `calculateScale` —
  is additionally modelled with an extended-number type `JSNum` whose
  division mirrors IEEE-754 semantics for finite operands.
* `Math.sqrt` is modelled by `Real.sqrt`, so the error-percentage fields of
  the final result live in `ℝ`; everything else stays in computable `ℚ`.
* A JS out-of-bounds element access followed by a property read
  (`scales[i].degreePerUnitX` with `i ≥ scales.length`) throws a
  `TypeError`; functions that can fault this way return `Option`, with
  `none` marking the thrown exception. Likewise `calibrate` on an empty
  calibration set faults reading `calibrationSet[0].gps`.
* `Number(x.toFixed(d))` / `Number.parseFloat(x.toFixed(d))` is modelled as
  rounding to `d` decimal places (`roundTo`), i.e. `round (x·10^d) / 10^d`.
-/

/-- `interface CartesianPoint { x: number; y: number; }` -/
structure CartesianPoint where
  x : ℚ
  y : ℚ
deriving DecidableEq, Inhabited

/-- `interface GPSPoint { longitude: number; latitude: number; }` -/
structure GPSPoint where
  longitude : ℚ
  latitude : ℚ
deriving DecidableEq, Inhabited

/-- `interface MapScale { degreePerUnitX: number; degreePerUnitY: number; }` -/
structure MapScale where
  degreePerUnitX : ℚ
  degreePerUnitY : ℚ
deriving DecidableEq, Inhabited

/-- `interface CalibratedPoint { cartesian: CartesianPoint; gps: GPSPoint; }` -/
structure CalibratedPoint where
  cartesian : CartesianPoint
  gps : GPSPoint
deriving DecidableEq, Inhabited

/-- `interface Dimensions { width: number; height: number; }` -/
structure Dimensions where
  width : ℚ
  height : ℚ
deriving DecidableEq, Inhabited

/-- The final result record.  `maxError` components involve `Math.sqrt`, so
they are real-valued in the embedding; `origin`/`opposite` are exact. -/
structure CalibrationResult where
  maxErrorX : ℝ
  maxErrorY : ℝ
  origin : GPSPoint
  opposite : GPSPoint

/-- `Number(x.toFixed(d))` on a rational: round to `d` decimal places. -/
def roundTo (d : ℕ) (x : ℚ) : ℚ :=
  (round (x * 10 ^ d) : ℤ) / 10 ^ d

/-- Real-valued variant of `roundTo`, for the error percentages which pass
through `Math.sqrt`. -/
noncomputable def roundToR (d : ℕ) (x : ℝ) : ℝ :=
  (round (x * 10 ^ d) : ℤ) / 10 ^ d

/-! ### `parseFloat`

JS strings are modelled as `List Char` (their character sequences), so that
all operations are structural.

JS `parseFloat` skips leading whitespace, accepts an optional sign, then the
longest prefix of the form `digits [. digits] [exponent]` or `. digits
[exponent]`, ignoring any trailing garbage; if no numeric prefix exists the
result is `NaN`.  `none` models `NaN` (and also the `Infinity` literal,
which fails every range comparison exactly as `NaN` does in
`isValidGPSInput`, the only consumer here). -/

/-- Accumulate a digit string into a natural number. -/
def digitsToNat (ds : List Char) : ℕ :=
  ds.foldl (fun a c => a * 10 + (c.toNat - 48)) 0

/-- Parse an unsigned mantissa `digits [. digits]`; returns the value and the
remaining characters. -/
def parseMantissa (cs : List Char) : Option (ℚ × List Char) :=
  let intPart := cs.takeWhile (·.isDigit)
  let rest := cs.dropWhile (·.isDigit)
  match rest with
  | '.' :: rest2 =>
      let fracPart := rest2.takeWhile (·.isDigit)
      let rest3 := rest2.dropWhile (·.isDigit)
      if intPart.isEmpty && fracPart.isEmpty then none
      else some ((digitsToNat intPart : ℚ)
        + (digitsToNat fracPart : ℚ) / 10 ^ fracPart.length, rest3)
  | _ =>
      if intPart.isEmpty then none
      else some ((digitsToNat intPart : ℚ), rest)

/-- Parse an optional exponent `e[±]digits` scaling the mantissa; an `e` not
followed by digits is trailing garbage and ignored, as in JS. -/
def applyExponent (q : ℚ) (cs : List Char) : ℚ :=
  match cs with
  | 'e' :: rest | 'E' :: rest =>
      let (sgn, rest2) : ℚ × List Char :=
        match rest with
        | '-' :: r => (-1, r)
        | '+' :: r => (1, r)
        | r => (1, r)
      let expDigits := rest2.takeWhile (·.isDigit)
      if expDigits.isEmpty then q
      else q * (10 : ℚ) ^ ((sgn.num.sign : ℤ) * digitsToNat expDigits)
  | _ => q

/-- JS whitespace accepted before the number. -/
def isJSSpace (c : Char) : Bool :=
  c = ' ' || c = '\t' || c = '\n' || c = '\r'

/-- `parseFloat(s)`; `none` models a `NaN` result. -/
def parseFloat (s : List Char) : Option ℚ :=
  let cs := s.dropWhile isJSSpace
  let (sgn, cs2) : ℚ × List Char :=
    match cs with
    | '-' :: r => (-1, r)
    | '+' :: r => (1, r)
    | r => (1, r)
  match parseMantissa cs2 with
  | some (q, rest) => some (sgn * applyExponent q rest)
  | none => none

/-- `input.split(',')` on the character-sequence view: split at every
occurrence of `sep`, keeping empty segments, as JS `String.split` does. -/
def splitOnChar (sep : Char) : List Char → List (List Char)
  | [] => [[]]
  | c :: rest =>
      match splitOnChar sep rest with
      | [] => [[]]
      | h :: t => if c = sep then [] :: h :: t else (c :: h) :: t

/-!
```
export function isValidGPSInput(input: string) {
  if (input.indexOf(',') == -1) return false;
  const array = input.split(',').map((value:string) => parseFloat(value));
  const latitudeIndex = 0;
  const longitudeIndex = 1;
  return array[latitudeIndex] >= -90 && array[latitudeIndex] <= 90
    && array[longitudeIndex] >= -180 && array[longitudeIndex] <= 180;
}
```
A `NaN` entry (`parseFloat` = `none`) fails every comparison, so the chain
of `&&` collapses to `false`; the `Option` match below reproduces that. -/
def isValidGPSInput (input : List Char) : Bool :=
  if !input.contains ',' then false
  else
    let array := (splitOnChar ',' input).map parseFloat
    match (array[0]? : Option (Option ℚ)), (array[1]? : Option (Option ℚ)) with
    | some (some lat), some (some lon) =>
        decide (lat ≥ -90) && decide (lat ≤ 90)
          && decide (lon ≥ -180) && decide (lon ≤ 180)
    | _, _ => false

/-!
```
function calculateScale(p1: CalibratedPoint, p2: CalibratedPoint) {
  let deltaLatitude = p1.gps.latitude - p2.gps.latitude;
  let deltaYInUnits = p1.cartesian.y - p2.cartesian.y;
  let degreePerUnitY = deltaLatitude / deltaYInUnits;
  let deltaLongitude = p1.gps.longitude - p2.gps.longitude;
  let deltaXInUnits = p1.cartesian.x - p2.cartesian.x;
  let degreePerUnitX = deltaLongitude / deltaXInUnits;
  return {degreePerUnitX, degreePerUnitY};
}
```
Rational idealisation (division by zero gives `0` here; the IEEE behaviour
is captured separately by `calculateScaleJS`). -/
def calculateScale (p1 p2 : CalibratedPoint) : MapScale :=
  let deltaLatitude := p1.gps.latitude - p2.gps.latitude
  let deltaYInUnits := p1.cartesian.y - p2.cartesian.y
  let degreePerUnitY := deltaLatitude / deltaYInUnits
  let deltaLongitude := p1.gps.longitude - p2.gps.longitude
  let deltaXInUnits := p1.cartesian.x - p2.cartesian.x
  let degreePerUnitX := deltaLongitude / deltaXInUnits
  { degreePerUnitX := degreePerUnitX, degreePerUnitY := degreePerUnitY }

/-!
```
export function normalizeImageDimensions(dimensions: Dimensions) {
  let res: Dimensions;
  if (dimensions.width > dimensions.height) {
    const width = 500;
    const height = 500 * dimensions.height / dimensions.width;
    res = { width: width, height: height };
  } else {
    const height = 500;
    const width = 500 * dimensions.width / dimensions.height;
    res = { width: width, height: height };
  }
  return res;
}
``` -/
def normalizeImageDimensions (dimensions : Dimensions) : Dimensions :=
  if dimensions.width > dimensions.height then
    { width := 500, height := 500 * dimensions.height / dimensions.width }
  else
    { width := 500 * dimensions.width / dimensions.height, height := 500 }

/-! ### `calibrate`

```
export function calibrate(calibrationSet: CalibratedPoint[], imageDimensions: Dimensions) {
  const normalizedDimensions = normalizeImageDimensions(imageDimensions);
  // calculate (n choose 2) scales for each pair of data points;
  let scales: MapScale[] = [];
  for (let i = 0; i < calibrationSet.length - 1; i++) {
    for (let j = i+1; j < calibrationSet.length; j++) {
      let mapScale: MapScale = calculateScale(calibrationSet[i], calibrationSet[j]);
      scales.push(mapScale);
    }
  }
  ...
}
```
The function is split into its successive stages (pair scales, averaging,
origin, opposite corner, rounded auxiliary corners, error loop); `calibrate`
at the end chains them exactly as the source does. -/

/-- The nested pair loop: for `i` in `0..n-2`, for `j` in `i+1..n-1`, push
`calculateScale(set[i], set[j])`. -/
def calibrateScales (calibrationSet : List CalibratedPoint) : List MapScale :=
  (List.range (calibrationSet.length - 1)).flatMap fun i =>
    (List.range' (i + 1) (calibrationSet.length - (i + 1))).map fun j =>
      calculateScale (calibrationSet.getD i default) (calibrationSet.getD j default)

/-- The accumulation loop `XScaleSum += scales[i].degreePerUnitX` /
`YScaleSum += scales[i].degreePerUnitY` followed by division by
`scales.length`, i.e. `numDataPoints`. -/
def calibrateAvg (calibrationSet : List CalibratedPoint) : MapScale :=
  let scales := calibrateScales calibrationSet
  let XScaleSum := scales.foldl (fun acc s => acc + s.degreePerUnitX) 0
  let YScaleSum := scales.foldl (fun acc s => acc + s.degreePerUnitY) 0
  let numDataPoints : ℚ := scales.length
  { degreePerUnitX := XScaleSum / numDataPoints,
    degreePerUnitY := YScaleSum / numDataPoints }

/-- `originCoordinate`: back-solve from `calibrationSet[0]`. -/
def calibrateOrigin (calibrationSet : List CalibratedPoint) : GPSPoint :=
  let avg := calibrateAvg calibrationSet
  let p0 := calibrationSet.getD 0 default
  { latitude := p0.gps.latitude - avg.degreePerUnitY * p0.cartesian.y,
    longitude := p0.gps.longitude - avg.degreePerUnitX * p0.cartesian.x }

/-- `oppositeCoordinate`: origin shifted by the normalized dimensions times
the average scales. -/
def calibrateOpposite (calibrationSet : List CalibratedPoint)
    (imageDimensions : Dimensions) : GPSPoint :=
  let normalizedDimensions := normalizeImageDimensions imageDimensions
  let avg := calibrateAvg calibrationSet
  let origin := calibrateOrigin calibrationSet
  { latitude := origin.latitude + normalizedDimensions.height * avg.degreePerUnitY,
    longitude := origin.longitude + normalizedDimensions.width * avg.degreePerUnitX }

/-- `topLeftCoordinate`: auxiliary corner, rounded to 6 decimal places; the
source computes it but does not place it in the returned result. -/
def topLeftCoordinate (calibrationSet : List CalibratedPoint)
    (imageDimensions : Dimensions) : GPSPoint :=
  let normalizedDimensions := normalizeImageDimensions imageDimensions
  let avg := calibrateAvg calibrationSet
  let origin := calibrateOrigin calibrationSet
  { latitude := roundTo 6 (origin.latitude + normalizedDimensions.height * avg.degreePerUnitY),
    longitude := roundTo 6 origin.longitude }

/-- `downRightCoordinate`: auxiliary corner, rounded to 6 decimal places;
also never placed in the returned result. -/
def downRightCoordinate (calibrationSet : List CalibratedPoint)
    (imageDimensions : Dimensions) : GPSPoint :=
  let normalizedDimensions := normalizeImageDimensions imageDimensions
  let avg := calibrateAvg calibrationSet
  let origin := calibrateOrigin calibrationSet
  { latitude := roundTo 6 origin.latitude,
    longitude := roundTo 6 (origin.longitude + normalizedDimensions.width * avg.degreePerUnitX) }

/-- The radicand of `diagonal = Math.sqrt(...)` (computable part). -/
def diagonalSq (calibrationSet : List CalibratedPoint)
    (imageDimensions : Dimensions) : ℚ :=
  let normalizedDimensions := normalizeImageDimensions imageDimensions
  let avg := calibrateAvg calibrationSet
  (normalizedDimensions.width * avg.degreePerUnitX) ^ 2
    + (normalizedDimensions.height * avg.degreePerUnitY) ^ 2

/-- `const diagonal = Math.sqrt(Math.pow(w*avgX,2) + Math.pow(h*avgY,2))`. -/
noncomputable def diagonal (calibrationSet : List CalibratedPoint)
    (imageDimensions : Dimensions) : ℝ :=
  Real.sqrt (diagonalSq calibrationSet imageDimensions : ℚ)

/-- Mutable state of the error loop: `scalesWithMaxDifference` and
`pointIndexWithMaxDifference`. -/
structure MaxDiffState where
  maxX : ℚ
  maxY : ℚ
  idxX : ℤ
  idxY : ℤ
deriving DecidableEq, Inhabited

/-- One iteration of the error loop at index `i`: reads `scales[i]` (a
`TypeError` — modelled `none` — when `i` is out of bounds) and updates the
per-axis maxima independently. -/
def maxDiffStep (scales : List MapScale) (avg : MapScale)
    (acc : Option MaxDiffState) (i : ℕ) : Option MaxDiffState := do
  let st ← acc
  let sc ← scales[i]?
  let XScaleDifference := |sc.degreePerUnitX - avg.degreePerUnitX|
  let YScaleDifference := |sc.degreePerUnitY - avg.degreePerUnitY|
  let st1 := if XScaleDifference > st.maxX then
      { st with maxX := XScaleDifference, idxX := (i : ℤ) } else st
  pure (if YScaleDifference > st1.maxY then
      { st1 with maxY := YScaleDifference, idxY := (i : ℤ) } else st1)

/-- `for (let i = 0; i < calibrationSet.length; i++) { ... }` over the
`scales` sequence, starting from zero maxima and indices `-1`. -/
def maxDiffLoop (scales : List MapScale) (avg : MapScale) (n : ℕ) :
    Option MaxDiffState :=
  (List.range n).foldl (maxDiffStep scales avg)
    (some { maxX := 0, maxY := 0, idxX := -1, idxY := -1 })

/-- The full `calibrate`.  `none` models the `TypeError` thrown on an empty
set (reading `calibrationSet[0].gps`) or by the error loop reading past the
end of `scales` (which happens exactly when `n < 3`, see `claim_C3`). -/
noncomputable def calibrate (calibrationSet : List CalibratedPoint)
    (imageDimensions : Dimensions) : Option CalibrationResult :=
  if calibrationSet.isEmpty then none
  else
    (maxDiffLoop (calibrateScales calibrationSet) (calibrateAvg calibrationSet)
        calibrationSet.length).map fun st =>
      { maxErrorX := roundToR 3 ((st.maxX : ℝ)
          / diagonal calibrationSet imageDimensions * 100),
        maxErrorY := roundToR 3 ((st.maxY : ℝ)
          / diagonal calibrationSet imageDimensions * 100),
        origin := calibrateOrigin calibrationSet,
        opposite := calibrateOpposite calibrationSet imageDimensions }

/-- `calculateScaleFromEndpoints` of the source (two-corner convenience
path). -/
def calculateScaleFromEndpoints (origin opposite : GPSPoint)
    (imageDimensions : Dimensions) : MapScale :=
  let normalizedDimensions := normalizeImageDimensions imageDimensions
  let originComplete : CalibratedPoint := { gps := origin, cartesian := { x := 0, y := 0 } }
  let oppositeComplete : CalibratedPoint :=
    { gps := opposite,
      cartesian := { x := normalizedDimensions.width, y := normalizedDimensions.height } }
  calculateScale originComplete oppositeComplete

/-! ### IEEE-flavoured model of the unguarded divisions in `calculateScale`

JS `number` division is IEEE-754: `a / 0` is `+Infinity` for `a > 0`,
`-Infinity` for `a < 0`, and `NaN` for `a = 0` (the denominators here arise
as `a - a = +0` for finite `a`, never `-0`).  `JSNum` extends `ℚ` with the
three special values; only the finite/finite division case is exercised by
`calculateScaleJS`, but `jsDiv` is total. -/
inductive JSNum where
  | fin : ℚ → JSNum
  | posInf : JSNum
  | negInf : JSNum
  | nan : JSNum
deriving DecidableEq, Inhabited

/-- IEEE-754 division on the extended values (positive-zero convention for
zero denominators, as produced by `a - b` with `a = b` finite). -/
def jsDiv : JSNum → JSNum → JSNum
  | JSNum.fin a, JSNum.fin b =>
      if b ≠ 0 then JSNum.fin (a / b)
      else if a > 0 then JSNum.posInf
      else if a < 0 then JSNum.negInf
      else JSNum.nan
  | JSNum.fin _, JSNum.posInf => JSNum.fin 0
  | JSNum.fin _, JSNum.negInf => JSNum.fin 0
  | JSNum.posInf, JSNum.fin b => if b < 0 then JSNum.negInf else JSNum.posInf
  | JSNum.negInf, JSNum.fin b => if b < 0 then JSNum.posInf else JSNum.negInf
  | _, _ => JSNum.nan

/-- A `MapScale` whose components may be the IEEE special values. -/
structure JSMapScale where
  degreePerUnitX : JSNum
  degreePerUnitY : JSNum
deriving DecidableEq, Inhabited

/-- `calculateScale` with the divisions interpreted per IEEE-754: the
subtractions of finite inputs are exact, the divisions may produce
`±Infinity` or `NaN`, and whatever they produce is returned unmodified. -/
def calculateScaleJS (p1 p2 : CalibratedPoint) : JSMapScale :=
  let deltaLatitude := p1.gps.latitude - p2.gps.latitude
  let deltaYInUnits := p1.cartesian.y - p2.cartesian.y
  let degreePerUnitY := jsDiv (JSNum.fin deltaLatitude) (JSNum.fin deltaYInUnits)
  let deltaLongitude := p1.gps.longitude - p2.gps.longitude
  let deltaXInUnits := p1.cartesian.x - p2.cartesian.x
  let degreePerUnitX := jsDiv (JSNum.fin deltaLongitude) (JSNum.fin deltaXInUnits)
  { degreePerUnitX := degreePerUnitX, degreePerUnitY := degreePerUnitY }

/-! ### Spec-side reformulations

These follow the wording of the specification (means over all `C(n,2)`
unordered pairs, per-index maxima over the first `n` scale entries), to be
compared with the loop-structured definitions above. -/

/-- Spec's mean over all unordered pairs `(i, j)` with `i < j < n`,
X component: `mean(scales[*].degreePerUnitX)`. -/
def specAvgX (s : List CalibratedPoint) : ℚ :=
  (∑ i ∈ Finset.range s.length, ∑ j ∈ Finset.Ico (i + 1) s.length,
    (calculateScale (s.getD i default) (s.getD j default)).degreePerUnitX)
    / (s.length.choose 2 : ℚ)

/-- Spec's mean over all unordered pairs, Y component. -/
def specAvgY (s : List CalibratedPoint) : ℚ :=
  (∑ i ∈ Finset.range s.length, ∑ j ∈ Finset.Ico (i + 1) s.length,
    (calculateScale (s.getD i default) (s.getD j default)).degreePerUnitY)
    / (s.length.choose 2 : ℚ)

/-- Spec's `maxXDiff`: maximum over `i ∈ 0..n-1` of
`|scales[i].degreePerUnitX − avgX|`. -/
def specMaxXDiff (s : List CalibratedPoint) : ℚ :=
  ((List.range s.length).map fun i =>
    |((calibrateScales s).getD i default).degreePerUnitX
      - (calibrateAvg s).degreePerUnitX|).foldl max 0

/-- Spec's `maxYDiff`: maximum over `i ∈ 0..n-1` of
`|scales[i].degreePerUnitY − avgY|`. -/
def specMaxYDiff (s : List CalibratedPoint) : ℚ :=
  ((List.range s.length).map fun i =>
    |((calibrateScales s).getD i default).degreePerUnitY
      - (calibrateAvg s).degreePerUnitY|).foldl max 0

/-! ### General list lemmas -/

theorem sum_flatMap_q {α : Type} (l : List α) (f : α → List ℚ) :
    (l.flatMap f).sum = (l.map fun a => (f a).sum).sum := by
  induction l with
  | nil => simp
  | cons a t ih => simp [List.flatMap_cons, ih]

theorem sum_map_range_q (n : ℕ) (f : ℕ → ℚ) :
    ((List.range n).map f).sum = ∑ i ∈ Finset.range n, f i := by
  induction n with
  | zero => simp
  | succ m ih => rw [List.range_succ, List.map_append, List.sum_append,
      Finset.sum_range_succ, ih]; simp

theorem sum_map_range'_q (a k : ℕ) (f : ℕ → ℚ) :
    ((List.range' a k).map f).sum = ∑ j ∈ Finset.Ico a (a + k), f j := by
  induction k generalizing a with
  | zero => simp
  | succ m ih =>
      rw [List.range'_succ, List.map_cons, List.sum_cons, ih]
      have h : a < a + 1 + m := by omega
      rw [show a + (m + 1) = a + 1 + m by omega,
        Finset.sum_eq_sum_Ico_succ_bot h f]

theorem foldl_add_eq_sum_map {α : Type} (l : List α) (f : α → ℚ) :
    l.foldl (fun acc s => acc + f s) 0 = (l.map f).sum := by
  rw [List.sum_eq_foldl, List.foldl_map]

theorem sum_map_range_nat (n : ℕ) (f : ℕ → ℕ) :
    ((List.range n).map f).sum = ∑ i ∈ Finset.range n, f i := by
  induction n with
  | zero => simp
  | succ m ih => rw [List.range_succ, List.map_append, List.sum_append,
      Finset.sum_range_succ, ih]; simp

theorem if_gt_max (a b : ℚ) : (if b > a then b else a) = max a b := by
  rcases le_total b a with h | h
  · rw [if_neg (not_lt.mpr h), max_eq_left h]
  · rcases eq_or_lt_of_le h with rfl | hlt
    · simp
    · rw [if_pos hlt, max_eq_right h]

theorem foldl_max_range_succ (g : ℕ → ℚ) (m : ℕ) :
    ((List.range (m + 1)).map g).foldl max 0
      = max (((List.range m).map g).foldl max 0) (g m) := by
  rw [List.range_succ, List.map_append, List.foldl_append]
  rfl

theorem foldl_max_nonneg (l : List ℚ) (a : ℚ) (h : 0 ≤ a) :
    0 ≤ l.foldl max a := by
  induction l generalizing a with
  | nil => simpa
  | cons x t ih => exact ih (max a x) (le_trans h (le_max_left a x))

theorem foldl_max_eq_zero (l : List ℚ) (h : ∀ x ∈ l, x = 0) :
    l.foldl max 0 = 0 := by
  induction l with
  | nil => rfl
  | cons x t ih =>
      have hx : x = 0 := h x (by simp)
      simp only [List.foldl_cons, hx, max_self]
      exact ih fun y hy => h y (by simp [hy])

/-! ### Structure of the pair-scale loop -/

theorem sum_range_sub (m : ℕ) :
    (∑ i ∈ Finset.range m, (m - i)) = (m + 1).choose 2 := by
  induction m with
  | zero => simp
  | succ k ih =>
      rw [Finset.sum_range_succ]
      have h1 : ∀ i ∈ Finset.range k, (k + 1 - i) = (k - i) + 1 := by
        intro i hi
        simp only [Finset.mem_range] at hi
        omega
      rw [Finset.sum_congr rfl h1, Finset.sum_add_distrib, ih,
        Finset.sum_const, Finset.card_range, smul_eq_mul, mul_one]
      have h2 : (k + 1 + 1).choose 2 = (k + 1) + (k + 1).choose 2 := by
        rw [Nat.choose_succ_succ (k + 1) 1, Nat.choose_one_right]
      omega

theorem pair_loop_length (n : ℕ) :
    (∑ i ∈ Finset.range (n - 1), (n - (i + 1))) = n.choose 2 := by
  rcases n with _ | m
  · simp
  · have h1 : ∀ i ∈ Finset.range m, (m + 1 - (i + 1)) = m - i := by
      intro i hi
      omega
    rw [Nat.succ_sub_one, Finset.sum_congr rfl h1, sum_range_sub]

theorem calibrateScales_length (s : List CalibratedPoint) :
    (calibrateScales s).length = s.length.choose 2 := by
  rw [calibrateScales, List.length_flatMap]
  have h : ∀ i, (Function.comp List.length fun i =>
      (List.range' (i + 1) (s.length - (i + 1))).map fun j =>
        calculateScale (s.getD i default) (s.getD j default)) i
      = s.length - (i + 1) := by
    intro i
    simp [Function.comp]
  rw [funext h] at *
  rw [sum_map_range_nat, pair_loop_length]

theorem calibrateScales_sum_map (s : List CalibratedPoint) (f : MapScale → ℚ) :
    ((calibrateScales s).map f).sum
      = ∑ i ∈ Finset.range s.length, ∑ j ∈ Finset.Ico (i + 1) s.length,
          f (calculateScale (s.getD i default) (s.getD j default)) := by
  rw [calibrateScales, List.map_flatMap, sum_flatMap_q, sum_map_range_q]
  have h : ∀ i ∈ Finset.range (s.length - 1),
      (List.map f ((List.range' (i + 1) (s.length - (i + 1))).map fun j =>
        calculateScale (s.getD i default) (s.getD j default))).sum
      = ∑ j ∈ Finset.Ico (i + 1) s.length,
          f (calculateScale (s.getD i default) (s.getD j default)) := by
    intro i hi
    simp only [Finset.mem_range] at hi
    rw [List.map_map, sum_map_range'_q]
    have h2 : i + 1 + (s.length - (i + 1)) = s.length := by omega
    rw [h2]
    rfl
  rw [Finset.sum_congr rfl h]
  rcases hn : s.length with _ | m
  · simp
  · rw [Nat.succ_sub_one, Finset.sum_range_succ]
    have h3 : ∑ j ∈ Finset.Ico (m + 1) (m + 1),
        f (calculateScale (s.getD m default) (s.getD j default)) = 0 := by
      simp
    rw [h3, add_zero]

/-! ### Structure of the error loop -/

theorem maxDiffLoop_succ (scales : List MapScale) (avg : MapScale) (m : ℕ) :
    maxDiffLoop scales avg (m + 1)
      = maxDiffStep scales avg (maxDiffLoop scales avg m) m := by
  rw [maxDiffLoop, maxDiffLoop, List.range_succ, List.foldl_append]
  rfl

theorem maxDiffStep_of_none (scales : List MapScale) (avg : MapScale) (i : ℕ) :
    maxDiffStep scales avg none i = none := rfl

theorem maxDiffStep_some (scales : List MapScale) (avg : MapScale)
    (st : MaxDiffState) (i : ℕ) (h : i < scales.length) :
    maxDiffStep scales avg (some st) i = some
      { maxX := max st.maxX |scales[i].degreePerUnitX - avg.degreePerUnitX|,
        maxY := max st.maxY |scales[i].degreePerUnitY - avg.degreePerUnitY|,
        idxX := if |scales[i].degreePerUnitX - avg.degreePerUnitX| > st.maxX
          then (i : ℤ) else st.idxX,
        idxY := if |scales[i].degreePerUnitY - avg.degreePerUnitY| > st.maxY
          then (i : ℤ) else st.idxY } := by
  simp only [maxDiffStep, List.getElem?_eq_getElem h, Option.bind_eq_bind,
    Option.some_bind, Option.pure_def]
  split_ifs with h1 h2 h3 <;>
    simp_all [MaxDiffState.mk.injEq, if_gt_max, max_eq_left, max_eq_right,
      le_of_lt, le_of_not_lt]

theorem maxDiffLoop_some (scales : List MapScale) (avg : MapScale) (n : ℕ)
    (h : n ≤ scales.length) :
    ∃ st : MaxDiffState,
      maxDiffLoop scales avg n = some st
      ∧ st.maxX = ((List.range n).map fun i =>
          |(scales.getD i default).degreePerUnitX - avg.degreePerUnitX|).foldl max 0
      ∧ st.maxY = ((List.range n).map fun i =>
          |(scales.getD i default).degreePerUnitY - avg.degreePerUnitY|).foldl max 0 := by
  induction n with
  | zero => exact ⟨_, rfl, rfl, rfl⟩
  | succ m ih =>
      obtain ⟨st, hst, hx, hy⟩ := ih (by omega)
      have hm : m < scales.length := by omega
      refine ⟨_, by rw [maxDiffLoop_succ, hst, maxDiffStep_some scales avg st m hm], ?_, ?_⟩
      · rw [foldl_max_range_succ, ← hx, List.getD_eq_getElem _ _ hm]
      · rw [foldl_max_range_succ, ← hy, List.getD_eq_getElem _ _ hm]

theorem maxDiffLoop_none (scales : List MapScale) (avg : MapScale) (n : ℕ)
    (h : scales.length < n) :
    maxDiffLoop scales avg n = none := by
  induction n with
  | zero => omega
  | succ m ih =>
      rw [maxDiffLoop_succ]
      rcases Nat.lt_or_ge scales.length m with hm | hm
      · rw [ih hm, maxDiffStep_of_none]
      · have hlen : scales.length = m := by omega
        obtain ⟨st, hst, -, -⟩ := maxDiffLoop_some scales avg m (by omega)
        rw [hst]
        have hnone : scales[m]? = none := List.getElem?_eq_none (by omega)
        simp [maxDiffStep, hnone]

/-! ### Definedness of `calibrate` -/

theorem le_choose_two (n : ℕ) (h : 3 ≤ n) : n ≤ n.choose 2 := by
  rw [Nat.choose_two_right]
  have h2 : n * 2 ≤ n * (n - 1) := Nat.mul_le_mul_left n (by omega)
  calc n = n * 2 / 2 := by omega
  _ ≤ n * (n - 1) / 2 := Nat.div_le_div_right h2

theorem choose_two_lt (n : ℕ) (h1 : 1 ≤ n) (h2 : n < 3) : n.choose 2 < n := by
  interval_cases n <;> simp

theorem calibrate_isSome_iff (s : List CalibratedPoint) (dims : Dimensions) :
    (calibrate s dims).isSome ↔ 3 ≤ s.length := by
  rw [calibrate]
  rcases hs : s.isEmpty with - | -
  · have hlen : s.length ≠ 0 := by
      simpa [List.isEmpty_iff_length_eq_zero] using hs
    simp only [Bool.false_eq_true, if_false, Option.isSome_map]
    constructor
    · intro hsome
      by_contra hlt
      rw [maxDiffLoop_none _ _ _ ?_] at hsome
      · simp at hsome
      · rw [calibrateScales_length]
        exact lt_of_lt_of_le (choose_two_lt s.length (by omega) (by omega)) le_rfl
    · intro h3
      obtain ⟨st, hst, -, -⟩ := maxDiffLoop_some (calibrateScales s) (calibrateAvg s)
        s.length (by rw [calibrateScales_length]; exact le_choose_two s.length h3)
      rw [hst]
      rfl
  · have hlen : s.length = 0 := by
      simpa [List.isEmpty_iff_length_eq_zero] using hs
    simp [hlen]

theorem calibrateAvg_eq_spec (s : List CalibratedPoint) :
    calibrateAvg s
      = { degreePerUnitX := specAvgX s, degreePerUnitY := specAvgY s } := by
  unfold calibrateAvg specAvgX specAvgY
  simp only
  rw [foldl_add_eq_sum_map, foldl_add_eq_sum_map,
    calibrateScales_sum_map, calibrateScales_sum_map, calibrateScales_length]

/-! ### Rounding lemmas -/

theorem round_floor_half {x : ℝ} (h : 0 ≤ x) : (0 : ℤ) ≤ round x := by
  rw [round_eq]
  have h1 : (0 : ℤ) = ⌊(1 / 2 : ℝ)⌋ := by norm_num
  rw [h1]
  exact Int.floor_mono (by linarith)

theorem roundToR_nonneg (d : ℕ) (x : ℝ) (h : 0 ≤ x) : 0 ≤ roundToR d x := by
  rw [roundToR]
  have h1 : (0 : ℤ) ≤ round (x * 10 ^ d) := round_floor_half (by positivity)
  have h2 : (0 : ℝ) < 10 ^ d := by positivity
  exact div_nonneg (by exact_mod_cast h1) (le_of_lt h2)

theorem roundToR_zero (d : ℕ) : roundToR d 0 = 0 := by
  rw [roundToR]
  norm_num

theorem roundToR_idem (d : ℕ) (x : ℝ) : roundToR d (roundToR d x) = roundToR d x := by
  unfold roundToR
  have h2 : ((10 : ℝ) ^ d) ≠ 0 := by positivity
  rw [div_mul_cancel₀ _ h2, round_intCast]

theorem roundTo_idem (d : ℕ) (x : ℚ) : roundTo d (roundTo d x) = roundTo d x := by
  unfold roundTo
  have h2 : ((10 : ℚ) ^ d) ≠ 0 := by positivity
  rw [div_mul_cancel₀ _ h2, round_intCast]

/-! ### Constant (noise-free) calibration sets -/

theorem calibrateAvg_of_const (s : List CalibratedPoint) (c : MapScale)
    (hne : (calibrateScales s).length ≠ 0)
    (h : ∀ sc ∈ calibrateScales s, sc = c) :
    calibrateAvg s = c := by
  have hrep : calibrateScales s = List.replicate (calibrateScales s).length c :=
    List.eq_replicate_length.mpr h
  unfold calibrateAvg
  simp only
  rw [foldl_add_eq_sum_map, foldl_add_eq_sum_map, hrep, List.map_replicate,
    List.map_replicate, List.sum_replicate, List.sum_replicate,
    List.length_replicate, nsmul_eq_mul, nsmul_eq_mul]
  have hq : ((calibrateScales s).length : ℚ) ≠ 0 := by exact_mod_cast hne
  rw [mul_div_cancel_left₀ _ hq, mul_div_cancel_left₀ _ hq]

/-! ### Claim theorems -/

/-- C6: for positive dimensions, `normalizeImageDimensions` returns
`{500, 500·h/w}` when `w > h` and `{500·w/h, 500}` otherwise, the tie
`w = h` taking the else branch and producing exactly a 500×500 square. -/
theorem claim_C6 (d : Dimensions) (hw : 0 < d.width) (hh : 0 < d.height) :
    normalizeImageDimensions d
      = (if d.width > d.height
          then { width := 500, height := 500 * d.height / d.width }
          else { width := 500 * d.width / d.height, height := 500 })
    ∧ (d.width = d.height → normalizeImageDimensions d = { width := 500, height := 500 }) := by
  constructor
  · rfl
  · intro he
    rw [normalizeImageDimensions, if_neg (by rw [he]; exact lt_irrefl _), he,
      mul_div_assoc, div_self (ne_of_gt hh), mul_one]

/-- Witness for C6 at the concrete square input 300×300. -/
theorem claim_C6_witness :
    normalizeImageDimensions { width := 300, height := 300 }
      = { width := 500, height := 500 } :=
  (claim_C6 { width := 300, height := 300 } (by norm_num) (by norm_num)).2 rfl

/-- C7 counterexample: the claimed output `{250, 500}` for the square
500×500 input is wrong — the tie goes to the else branch, whose width is
`500·500/500 = 500`, not `250`. -/
theorem claim_C7_counterexample :
    ¬ (normalizeImageDimensions { width := 500, height := 500 }
        = { width := 250, height := 500 }) := by
  rw [normalizeImageDimensions]
  norm_num [Dimensions.mk.injEq]

/-- C7 amended: `normalizeDimensions({width:500, height:500})` returns
`{width:500, height:500}` (the tie takes the else branch, which preserves
the 500×500 square). -/
theorem claim_C7_amended :
    normalizeImageDimensions { width := 500, height := 500 }
      = { width := 500, height := 500 } := by
  rw [normalizeImageDimensions]
  norm_num [Dimensions.mk.injEq]

theorem splitOnChar_ne_nil (sep : Char) (l : List Char) : splitOnChar sep l ≠ [] := by
  cases l with
  | nil => simp [splitOnChar]
  | cons c rest =>
      rw [splitOnChar]
      rcases h : splitOnChar sep rest with - | ⟨h0, t⟩
      · simp
      · split_ifs <;> simp

theorem parseFloat_nil : parseFloat [] = none := rfl

/-- C5: `isValidGPSInput` returns false when the input has no comma; a first
field that parses as `NaN` gives false; and the result is true exactly when
the first comma-separated field parses to a number in `[-90, 90]` and the
second to a number in `[-180, 180]`. -/
theorem claim_C5 (input : List Char) :
    (input.contains ',' = false → isValidGPSInput input = false)
    ∧ (parseFloat ((splitOnChar ',' input).getD 0 []) = none →
        isValidGPSInput input = false)
    ∧ (isValidGPSInput input = true ↔
        input.contains ',' = true
        ∧ ∃ a b : ℚ, parseFloat ((splitOnChar ',' input).getD 0 []) = some a
          ∧ parseFloat ((splitOnChar ',' input).getD 1 []) = some b
          ∧ -90 ≤ a ∧ a ≤ 90 ∧ -180 ≤ b ∧ b ≤ 180) := by
  by_cases hc : input.contains ','
  · have hmem : ',' ∈ input := by simpa using hc
    rcases hf : splitOnChar ',' input with - | ⟨f0, rest⟩
    · exact absurd hf (splitOnChar_ne_nil ',' input)
    rcases rest with - | ⟨f1, rest2⟩
    · have hval : isValidGPSInput input = false := by
        simp [isValidGPSInput, hc, hmem, hf]
      refine ⟨fun hcf => (by rw [hcf] at hc; exact Bool.noConfusion hc), fun _ => hval, ?_⟩
      rw [hval]
      simp [parseFloat_nil]
    · rcases hp0 : parseFloat f0 with - | a
      · have hval : isValidGPSInput input = false := by
          simp [isValidGPSInput, hc, hmem, hf, hp0]
        refine ⟨fun hcf => (by rw [hcf] at hc; exact Bool.noConfusion hc), fun _ => hval, ?_⟩
        rw [hval]
        simp [hp0]
      · rcases hp1 : parseFloat f1 with - | b
        · have hval : isValidGPSInput input = false := by
            simp [isValidGPSInput, hc, hmem, hf, hp0, hp1]
          refine ⟨fun hcf => (by rw [hcf] at hc; exact Bool.noConfusion hc), fun _ => hval, ?_⟩
          rw [hval]
          simp [hp0, hp1]
        · have hval : isValidGPSInput input
              = (decide (a ≥ -90) && decide (a ≤ 90)
                && decide (b ≥ -180) && decide (b ≤ 180)) := by
            simp [isValidGPSInput, hc, hmem, hf, hp0, hp1]
          refine ⟨fun hcf => (by rw [hcf] at hc; exact Bool.noConfusion hc),
            fun hn => absurd hn (by simp [hp0]), ?_⟩
          rw [hval]
          simp only [List.getD_cons_zero, List.getD_cons_succ, hp0, hp1, hc,
            Bool.and_eq_true, decide_eq_true_eq, true_and, eq_self_iff_true]
          constructor
          · rintro ⟨⟨⟨h1, h2⟩, h3⟩, h4⟩
            exact ⟨a, b, rfl, rfl, h1, h2, h3, h4⟩
          · rintro ⟨a', b', ha', hb', h1, h2, h3, h4⟩
            cases ha'
            cases hb'
            exact ⟨⟨⟨h1, h2⟩, h3⟩, h4⟩
  · have hc' : input.contains ',' = false := by simpa using hc
    have hnmem : ',' ∉ input := by simpa using hc'
    have hval : isValidGPSInput input = false := by
      simp [isValidGPSInput, hc', hnmem]
    refine ⟨fun _ => hval, fun _ => hval, ?_⟩
    rw [hval]
    simp [hc', hnmem]

theorem applyExponent_nil (q : ℚ) : applyExponent q [] = q := rfl

theorem parseFloat_405 : parseFloat ['4', '0', '.', '5'] = some (81 / 2) := by
  have h : parseFloat ['4', '0', '.', '5']
      = some (1 * applyExponent ((digitsToNat ['4', '0'] : ℚ)
        + (digitsToNat ['5'] : ℚ) / 10 ^ (1 : ℕ)) []) := rfl
  have hd1 : digitsToNat ['4', '0'] = 40 := by decide
  have hd2 : digitsToNat ['5'] = 5 := by decide
  rw [h, applyExponent_nil, hd1, hd2]
  norm_num

theorem parseFloat_neg74 : parseFloat ['-', '7', '4'] = some (-74) := by
  have h : parseFloat ['-', '7', '4']
      = some ((-1) * applyExponent ((digitsToNat ['7', '4'] : ℕ) : ℚ) []) := rfl
  have hd : digitsToNat ['7', '4'] = 74 := by decide
  rw [h, applyExponent_nil, hd]
  norm_num

/-- Witness for C5: a comma-free string is rejected via the first conjunct,
and a valid "lat,lon" string is accepted via the equivalence. -/
theorem claim_C5_witness :
    isValidGPSInput ("abc".data) = false ∧ isValidGPSInput ("40.5,-74".data) = true := by
  constructor
  · exact (claim_C5 "abc".data).1 (by decide)
  · apply (claim_C5 "40.5,-74".data).2.2.mpr
    have hsplit : splitOnChar ',' "40.5,-74".data
        = [['4', '0', '.', '5'], ['-', '7', '4']] := by decide
    refine ⟨by decide, 81 / 2, -74, ?_, ?_, by norm_num, by norm_num,
      by norm_num, by norm_num⟩
    · rw [hsplit]
      exact parseFloat_405
    · rw [hsplit]
      exact parseFloat_neg74

/-- C9: `calculateScale` (as `calculateScaleJS`, with IEEE division) returns
exactly `degreePerUnitY = (lat1 − lat2)/(y1 − y2)` and
`degreePerUnitX = (lon1 − lon2)/(x1 − x2)` with no guard: equal cartesian
coordinates on an axis give `±Infinity` (sign of the GPS difference), or
`NaN` when the GPS values also coincide, returned unmodified. -/
theorem claim_C9 (p1 p2 : CalibratedPoint) :
    calculateScaleJS p1 p2
      = { degreePerUnitX := jsDiv (JSNum.fin (p1.gps.longitude - p2.gps.longitude))
            (JSNum.fin (p1.cartesian.x - p2.cartesian.x)),
          degreePerUnitY := jsDiv (JSNum.fin (p1.gps.latitude - p2.gps.latitude))
            (JSNum.fin (p1.cartesian.y - p2.cartesian.y)) }
    ∧ (p1.cartesian.y ≠ p2.cartesian.y →
        (calculateScaleJS p1 p2).degreePerUnitY
          = JSNum.fin ((p1.gps.latitude - p2.gps.latitude)
              / (p1.cartesian.y - p2.cartesian.y)))
    ∧ (p1.cartesian.y = p2.cartesian.y →
        (calculateScaleJS p1 p2).degreePerUnitY
          = if p2.gps.latitude < p1.gps.latitude then JSNum.posInf
            else if p1.gps.latitude < p2.gps.latitude then JSNum.negInf
            else JSNum.nan)
    ∧ (p1.cartesian.x ≠ p2.cartesian.x →
        (calculateScaleJS p1 p2).degreePerUnitX
          = JSNum.fin ((p1.gps.longitude - p2.gps.longitude)
              / (p1.cartesian.x - p2.cartesian.x)))
    ∧ (p1.cartesian.x = p2.cartesian.x →
        (calculateScaleJS p1 p2).degreePerUnitX
          = if p2.gps.longitude < p1.gps.longitude then JSNum.posInf
            else if p1.gps.longitude < p2.gps.longitude then JSNum.negInf
            else JSNum.nan) := by
  refine ⟨rfl, ?_, ?_, ?_, ?_⟩
  · intro h
    have hb : p1.cartesian.y - p2.cartesian.y ≠ 0 := sub_ne_zero.mpr h
    simp [calculateScaleJS, jsDiv, hb]
  · intro h
    have hb : p1.cartesian.y - p2.cartesian.y = 0 := sub_eq_zero.mpr h
    simp only [calculateScaleJS, jsDiv, hb, ne_eq, not_true_eq_false, if_false]
    simp [sub_pos, sub_neg]
  · intro h
    have hb : p1.cartesian.x - p2.cartesian.x ≠ 0 := sub_ne_zero.mpr h
    simp [calculateScaleJS, jsDiv, hb]
  · intro h
    have hb : p1.cartesian.x - p2.cartesian.x = 0 := sub_eq_zero.mpr h
    simp only [calculateScaleJS, jsDiv, hb, ne_eq, not_true_eq_false, if_false]
    simp [sub_pos, sub_neg]

/-- Witness C9 -/
theorem claim_C9_witness :
    (calculateScaleJS
        { cartesian := { x := 0, y := 5 }, gps := { longitude := 10, latitude := 20 } }
        { cartesian := { x := 3, y := 5 }, gps := { longitude := 10, latitude := 15 } }).degreePerUnitY
      = JSNum.posInf
    ∧ (calculateScaleJS
        { cartesian := { x := 0, y := 5 }, gps := { longitude := 10, latitude := 20 } }
        { cartesian := { x := 0, y := 5 }, gps := { longitude := 10, latitude := 20 } }).degreePerUnitY
      = JSNum.nan := by
  constructor
  · have h := (claim_C9
      { cartesian := { x := 0, y := 5 }, gps := { longitude := 10, latitude := 20 } }
      { cartesian := { x := 3, y := 5 }, gps := { longitude := 10, latitude := 15 } }).2.2.1 rfl
    rw [h]
    norm_num
  · have h := (claim_C9
      { cartesian := { x := 0, y := 5 }, gps := { longitude := 10, latitude := 20 } }
      { cartesian := { x := 0, y := 5 }, gps := { longitude := 10, latitude := 20 } }).2.2.1 rfl
    rw [h]
    norm_num

/-- C1: for a calibration set of at least 2 points and positive dimensions,
`calibrate` builds one `MapScale` per unordered pair `(i < j)` — `C(n,2)`
of them — averages them arithmetically (`specAvgX`/`specAvgY` are the
spec-side means over all pairs), back-solves the origin from `set[0]`
(`origin.latitude = set[0].gps.latitude − avgY·set[0].cartesian.y`, same
for longitude with `avgX` and `x`), and places the opposite corner at
`origin + normalizedDimensions · avg`. -/
theorem claim_C1 (s : List CalibratedPoint) (dims : Dimensions)
    (h2 : 2 ≤ s.length) (hw : 0 < dims.width) (hh : 0 < dims.height) :
    (calibrateScales s).length = s.length.choose 2
    ∧ calibrateAvg s = { degreePerUnitX := specAvgX s, degreePerUnitY := specAvgY s }
    ∧ calibrateOrigin s
      = { longitude := (s.getD 0 default).gps.longitude
            - specAvgX s * (s.getD 0 default).cartesian.x,
          latitude := (s.getD 0 default).gps.latitude
            - specAvgY s * (s.getD 0 default).cartesian.y }
    ∧ calibrateOpposite s dims
      = { longitude := (calibrateOrigin s).longitude
            + (normalizeImageDimensions dims).width * specAvgX s,
          latitude := (calibrateOrigin s).latitude
            + (normalizeImageDimensions dims).height * specAvgY s } := by
  refine ⟨calibrateScales_length s, calibrateAvg_eq_spec s, ?_, ?_⟩
  · rw [calibrateOrigin, calibrateAvg_eq_spec]
  · rw [calibrateOpposite, calibrateAvg_eq_spec]

def c8set : List CalibratedPoint :=
  [ { cartesian := { x := 1, y := 1 }, gps := { longitude := 0, latitude := 0 } },
    { cartesian := { x := 3, y := 3 }, gps := { longitude := 1/100, latitude := 1/100 } },
    { cartesian := { x := 7, y := 7 }, gps := { longitude := 2/100, latitude := 2/100 } } ]

def c8dims : Dimensions := { width := 500, height := 500 }

/-- Witness for C1 at a concrete 3-point set and 500×500 dimensions. -/
theorem claim_C1_witness :
    (calibrateScales c8set).length = c8set.length.choose 2
    ∧ calibrateAvg c8set
      = { degreePerUnitX := specAvgX c8set, degreePerUnitY := specAvgY c8set }
    ∧ calibrateOrigin c8set
      = { longitude := (c8set.getD 0 default).gps.longitude
            - specAvgX c8set * (c8set.getD 0 default).cartesian.x,
          latitude := (c8set.getD 0 default).gps.latitude
            - specAvgY c8set * (c8set.getD 0 default).cartesian.y }
    ∧ calibrateOpposite c8set c8dims
      = { longitude := (calibrateOrigin c8set).longitude
            + (normalizeImageDimensions c8dims).width * specAvgX c8set,
          latitude := (calibrateOrigin c8set).latitude
            + (normalizeImageDimensions c8dims).height * specAvgY c8set } :=
  claim_C1 c8set c8dims (by decide) (by norm_num [c8dims]) (by norm_num [c8dims])

/-- C3 (implicit): the error-estimation loop indexes the pair-scale
sequence at every position `0..n−1` while that sequence has length
`C(n,2)`; for `n ≥ 2` every access is in bounds iff `n ≥ 3`, and
`calibrate` completes (returns `some`) exactly when `n ≥ 3` — the true
safe precondition, stricter than the spec's `n ≥ 2`. -/
theorem claim_C3 (s : List CalibratedPoint) (h2 : 2 ≤ s.length) :
    ((∀ i < s.length, i < (calibrateScales s).length) ↔ 3 ≤ s.length)
    ∧ ∀ dims : Dimensions, ((calibrate s dims).isSome ↔ 3 ≤ s.length) := by
  refine ⟨⟨?_, ?_⟩, fun dims => calibrate_isSome_iff s dims⟩
  · intro h
    by_contra h3
    have hn : s.length = 2 := by omega
    have hb := h 1 (by omega)
    rw [calibrateScales_length, hn] at hb
    rw [show (2 : ℕ).choose 2 = 1 from Nat.choose_self 2] at hb
    omega
  · intro h3 i hi
    rw [calibrateScales_length]
    exact lt_of_lt_of_le hi (le_choose_two s.length h3)

/-- Witness for C3 at a concrete 3-point set. -/
theorem claim_C3_witness :
    ((∀ i < c8set.length, i < (calibrateScales c8set).length) ↔ 3 ≤ c8set.length)
    ∧ ∀ dims : Dimensions, ((calibrate c8set dims).isSome ↔ 3 ≤ c8set.length) :=
  claim_C3 c8set (by decide)

def scenarioSet : List CalibratedPoint :=
  [ { cartesian := { x := 0, y := 0 }, gps := { longitude := -74, latitude := 40 } },
    { cartesian := { x := 500, y := 500 },
      gps := { longitude := -7399/100, latitude := 4001/100 } } ]

def scenarioDims : Dimensions := { width := 500, height := 500 }

/-- C4 counterexample: on the spec's 2-point scenario, `calibrate` does
not return a result at all — the error loop reads `scales[1]` past the end
of the length-1 pair sequence and the call faults (`none`), so the claimed
returned origin/opposite never materialise. -/
theorem claim_C4_counterexample :
    calibrate scenarioSet scenarioDims = none := by
  have h : ¬ (calibrate scenarioSet scenarioDims).isSome = true := by
    rw [calibrate_isSome_iff]
    decide
  exact Option.not_isSome_iff_eq_none.mp h

def cornerSet (g0 g1 : GPSPoint) (dims : Dimensions) : List CalibratedPoint :=
  [ { cartesian := { x := 0, y := 0 }, gps := g0 },
    { cartesian := { x := (normalizeImageDimensions dims).width,
                     y := (normalizeImageDimensions dims).height }, gps := g1 } ]

/-- C4 amended: the quantities `calibrate` computes before the faulting
error loop match the claim — on the scenario the average scales are both
`0.00002 = 1/50000`, the origin back-solve gives point 0's GPS exactly and
the opposite corner `{lat 40.01, lon −73.99}`; and in general, for a
2-point set sitting exactly at the normalized corners (with nonzero
normalized dimensions), the origin/opposite stages reproduce the two GPS
values.  The full call itself returns `none` (see the counterexample). -/
theorem claim_C4_amended :
    (calibrateAvg scenarioSet
        = { degreePerUnitX := 1/50000, degreePerUnitY := 1/50000 }
      ∧ calibrateOrigin scenarioSet = { longitude := -74, latitude := 40 }
      ∧ calibrateOpposite scenarioSet scenarioDims
        = { longitude := -7399/100, latitude := 4001/100 })
    ∧ ∀ (g0 g1 : GPSPoint) (dims : Dimensions),
        (normalizeImageDimensions dims).width ≠ 0 →
        (normalizeImageDimensions dims).height ≠ 0 →
        calibrateOrigin (cornerSet g0 g1 dims) = g0
        ∧ calibrateOpposite (cornerSet g0 g1 dims) dims = g1 := by
  constructor
  · refine ⟨?_, ?_, ?_⟩
    · norm_num [calibrateAvg, calibrateScales, calculateScale, scenarioSet,
        List.range_succ, List.range', MapScale.mk.injEq]
    · norm_num [calibrateOrigin, calibrateAvg, calibrateScales, calculateScale,
        scenarioSet, List.range_succ, List.range', GPSPoint.mk.injEq]
    · norm_num [calibrateOpposite, calibrateOrigin, calibrateAvg, calibrateScales,
        calculateScale, scenarioSet, scenarioDims, normalizeImageDimensions,
        List.range_succ, List.range', GPSPoint.mk.injEq]
  · intro g0 g1 dims hw hh
    have hscales : calibrateScales (cornerSet g0 g1 dims)
        = [calculateScale
            { cartesian := { x := 0, y := 0 }, gps := g0 }
            { cartesian := { x := (normalizeImageDimensions dims).width,
                             y := (normalizeImageDimensions dims).height }, gps := g1 }] := by
      simp [calibrateScales, cornerSet, List.range_succ, List.range']
    have havg : calibrateAvg (cornerSet g0 g1 dims)
        = calculateScale
            { cartesian := { x := 0, y := 0 }, gps := g0 }
            { cartesian := { x := (normalizeImageDimensions dims).width,
                             y := (normalizeImageDimensions dims).height }, gps := g1 } := by
      rw [calibrateAvg]
      simp [hscales]
    have horigin : calibrateOrigin (cornerSet g0 g1 dims) = g0 := by
      rw [calibrateOrigin, havg]
      simp [cornerSet]
    refine ⟨horigin, ?_⟩
    rw [calibrateOpposite, havg, horigin, calculateScale]
    simp only [cornerSet]
    have hx : g0.longitude + (normalizeImageDimensions dims).width
        * ((g0.longitude - g1.longitude) / (0 - (normalizeImageDimensions dims).width))
        = g1.longitude := by
      rw [zero_sub, div_neg, mul_neg, ← mul_div_assoc, mul_div_cancel_left₀ _ hw]
      ring
    have hy : g0.latitude + (normalizeImageDimensions dims).height
        * ((g0.latitude - g1.latitude) / (0 - (normalizeImageDimensions dims).height))
        = g1.latitude := by
      rw [zero_sub, div_neg, mul_neg, ← mul_div_assoc, mul_div_cancel_left₀ _ hh]
      ring
    cases g1
    simp_all [GPSPoint.mk.injEq]

/-- Witness for C4 (amended): the corner round-trip at concrete GPS values
and 500×500 dimensions. -/
theorem claim_C4_witness :
    calibrateOrigin (cornerSet { longitude := 1, latitude := 2 }
        { longitude := 3, latitude := 4 } { width := 500, height := 500 })
      = { longitude := 1, latitude := 2 }
    ∧ calibrateOpposite (cornerSet { longitude := 1, latitude := 2 }
        { longitude := 3, latitude := 4 } { width := 500, height := 500 })
        { width := 500, height := 500 }
      = { longitude := 3, latitude := 4 } :=
  claim_C4_amended.2 { longitude := 1, latitude := 2 } { longitude := 3, latitude := 4 }
    { width := 500, height := 500 }
    (by norm_num [normalizeImageDimensions])
    (by norm_num [normalizeImageDimensions])

theorem list_nonempty_not_isEmpty (s : List CalibratedPoint) (h : 1 ≤ s.length) :
    s.isEmpty = false := by
  cases s with
  | nil => simp at h
  | cons a t => rfl

theorem calibrate_eq_some (s : List CalibratedPoint) (dims : Dimensions)
    (h3 : 3 ≤ s.length) :
    ∃ st : MaxDiffState,
      maxDiffLoop (calibrateScales s) (calibrateAvg s) s.length = some st
      ∧ st.maxX = specMaxXDiff s
      ∧ st.maxY = specMaxYDiff s
      ∧ calibrate s dims = some
        { maxErrorX := roundToR 3 ((st.maxX : ℝ) / diagonal s dims * 100),
          maxErrorY := roundToR 3 ((st.maxY : ℝ) / diagonal s dims * 100),
          origin := calibrateOrigin s,
          opposite := calibrateOpposite s dims } := by
  have hlen : s.length ≤ (calibrateScales s).length := by
    rw [calibrateScales_length]
    exact le_choose_two s.length h3
  obtain ⟨st, hst, hx, hy⟩ := maxDiffLoop_some _ _ _ hlen
  refine ⟨st, hst, by rw [specMaxXDiff]; exact hx, by rw [specMaxYDiff]; exact hy, ?_⟩
  rw [calibrate, list_nonempty_not_isEmpty s (by omega)]
  simp [hst]

/-- C2: when `calibrate` completes (`n ≥ 3`), the error estimate equals the
spec's description: the per-axis maxima of `|scales[i] − avg|` over
`i ∈ 0..n−1` (tracked independently, from the `C(n,2)`-long pair-scale
sequence — its length is the last conjunct), divided by
`diagonal = sqrt((w·avgX)² + (h·avgY)²)`, times 100, rounded to 3 decimal
places. -/
theorem claim_C2 (s : List CalibratedPoint) (dims : Dimensions) (h3 : 3 ≤ s.length) :
    ∀ r ∈ calibrate s dims,
      r.maxErrorX = roundToR 3 ((specMaxXDiff s : ℝ)
        / Real.sqrt ((((normalizeImageDimensions dims).width * specAvgX s) ^ 2
          + ((normalizeImageDimensions dims).height * specAvgY s) ^ 2 : ℚ) : ℝ) * 100)
      ∧ r.maxErrorY = roundToR 3 ((specMaxYDiff s : ℝ)
        / Real.sqrt ((((normalizeImageDimensions dims).width * specAvgX s) ^ 2
          + ((normalizeImageDimensions dims).height * specAvgY s) ^ 2 : ℚ) : ℝ) * 100)
      ∧ (calibrateScales s).length = s.length.choose 2 := by
  intro r hr
  obtain ⟨st, hst, hx, hy, heq⟩ := calibrate_eq_some s dims h3
  rw [heq] at hr
  simp only [Option.mem_def, Option.some.injEq] at hr
  have hdiag : diagonal s dims
      = Real.sqrt ((((normalizeImageDimensions dims).width * specAvgX s) ^ 2
          + ((normalizeImageDimensions dims).height * specAvgY s) ^ 2 : ℚ) : ℝ) := by
    rw [diagonal, diagonalSq, calibrateAvg_eq_spec]
  subst hr
  exact ⟨by rw [← hx, ← hdiag], by rw [← hy, ← hdiag], calibrateScales_length s⟩

/-- Witness for C2 at a concrete 3-point set (the returned error fields,
instantiated explicitly, equal the spec formulas). -/
theorem claim_C2_witness :
    roundToR 3 ((specMaxXDiff c8set : ℝ) / diagonal c8set c8dims * 100)
      = roundToR 3 ((specMaxXDiff c8set : ℝ)
        / Real.sqrt ((((normalizeImageDimensions c8dims).width * specAvgX c8set) ^ 2
          + ((normalizeImageDimensions c8dims).height * specAvgY c8set) ^ 2 : ℚ) : ℝ) * 100)
    ∧ roundToR 3 ((specMaxYDiff c8set : ℝ) / diagonal c8set c8dims * 100)
      = roundToR 3 ((specMaxYDiff c8set : ℝ)
        / Real.sqrt ((((normalizeImageDimensions c8dims).width * specAvgX c8set) ^ 2
          + ((normalizeImageDimensions c8dims).height * specAvgY c8set) ^ 2 : ℚ) : ℝ) * 100)
    ∧ (calibrateScales c8set).length = c8set.length.choose 2 := by
  obtain ⟨st, hst, hx, hy, heq⟩ := calibrate_eq_some c8set c8dims (by decide)
  have h := claim_C2 c8set c8dims (by decide) _ (Option.mem_def.mpr heq)
  rw [hx, hy] at h
  exact h

/-- C8 amended: in the returned `CalibrationResult` the error percentages
are rounded to 3 decimal places (they are `roundToR 3`-fixed points), but
`origin` and `opposite` are returned unrounded — they equal the exact
back-solved values; the 6-decimal rounding in the code is applied only to
the auxiliary top-left/down-right corner values, which are not part of the
result. -/
theorem claim_C8_amended (s : List CalibratedPoint) (dims : Dimensions)
    (h3 : 3 ≤ s.length) :
    ((calibrate s dims).map fun r => r.origin) = some (calibrateOrigin s)
    ∧ ((calibrate s dims).map fun r => r.opposite) = some (calibrateOpposite s dims)
    ∧ (∀ r ∈ calibrate s dims,
        roundToR 3 r.maxErrorX = r.maxErrorX ∧ roundToR 3 r.maxErrorY = r.maxErrorY)
    ∧ roundTo 6 (topLeftCoordinate s dims).latitude = (topLeftCoordinate s dims).latitude
    ∧ roundTo 6 (topLeftCoordinate s dims).longitude = (topLeftCoordinate s dims).longitude
    ∧ roundTo 6 (downRightCoordinate s dims).latitude = (downRightCoordinate s dims).latitude
    ∧ roundTo 6 (downRightCoordinate s dims).longitude
      = (downRightCoordinate s dims).longitude := by
  obtain ⟨st, hst, hx, hy, heq⟩ := calibrate_eq_some s dims h3
  rw [heq]
  refine ⟨rfl, rfl, ?_, ?_, ?_, ?_, ?_⟩
  · intro r hr
    simp only [Option.mem_def, Option.some.injEq] at hr
    subst hr
    exact ⟨roundToR_idem 3 _, roundToR_idem 3 _⟩
  · simp only [topLeftCoordinate]
    exact roundTo_idem 6 _
  · simp only [topLeftCoordinate]
    exact roundTo_idem 6 _
  · simp only [downRightCoordinate]
    exact roundTo_idem 6 _
  · simp only [downRightCoordinate]
    exact roundTo_idem 6 _

/-- Witness for C8 (amended) at a concrete 3-point set. -/
theorem claim_C8_witness :
    ((calibrate c8set c8dims).map fun r => r.origin) = some (calibrateOrigin c8set)
    ∧ ((calibrate c8set c8dims).map fun r => r.opposite)
      = some (calibrateOpposite c8set c8dims)
    ∧ (∀ r ∈ calibrate c8set c8dims,
        roundToR 3 r.maxErrorX = r.maxErrorX ∧ roundToR 3 r.maxErrorY = r.maxErrorY)
    ∧ roundTo 6 (topLeftCoordinate c8set c8dims).latitude
      = (topLeftCoordinate c8set c8dims).latitude
    ∧ roundTo 6 (topLeftCoordinate c8set c8dims).longitude
      = (topLeftCoordinate c8set c8dims).longitude
    ∧ roundTo 6 (downRightCoordinate c8set c8dims).latitude
      = (downRightCoordinate c8set c8dims).latitude
    ∧ roundTo 6 (downRightCoordinate c8set c8dims).longitude
      = (downRightCoordinate c8set c8dims).longitude :=
  claim_C8_amended c8set c8dims (by decide)

/-- C8 counterexample: a 3-point set whose returned origin latitude is
`−13/3600`, which is not representable in 6 decimal places — the returned
coordinate is not rounded, contradicting the claim. -/
theorem claim_C8_counterexample :
    ((calibrate c8set c8dims).map fun r => r.origin)
      = some { longitude := -13/3600, latitude := -13/3600 }
    ∧ roundTo 6 ((-13 : ℚ)/3600) ≠ (-13 : ℚ)/3600 := by
  constructor
  · obtain ⟨st, hst, hx, hy, heq⟩ := calibrate_eq_some c8set c8dims (by decide)
    rw [heq]
    simp only [Option.map_some']
    congr 1
    norm_num [calibrateOrigin, calibrateAvg, calibrateScales, calculateScale,
      c8set, List.range_succ, List.range', GPSPoint.mk.injEq]
  · rw [roundTo, round_eq]
    have hfl : ⌊(-13 : ℚ)/3600 * 10 ^ 6 + 1/2⌋ = -3611 := by
      rw [Int.floor_eq_iff]
      constructor <;> norm_num
    rw [hfl]
    norm_num

/-! ### IEEE-faithful pipeline for the error-metric claim

The rational `calculateScale` collapses division by zero to `0`, which is
sound only when no pair of points shares a cartesian coordinate.  To settle
what `calibrate` really returns on degenerate sets, the whole pipeline is
mirrored once more over `JSNumR`, an extended real with the IEEE-754
special values: subtraction, multiplication, division, `Math.abs`,
`Math.sqrt`, `Math.pow(·,2)` (as self-multiplication), the `>` comparisons
of the error loop (false on `NaN`), and the `toFixed(3)`/`parseFloat`
round-trip (the identity on `±Infinity` and `NaN`).  Finite values are
ideal reals, as everywhere else in this file. -/

inductive JSNumR where
  | fin : ℝ → JSNumR
  | posInf : JSNumR
  | negInf : JSNumR
  | nan : JSNumR

/-- IEEE negation. -/
noncomputable def jsNegR : JSNumR → JSNumR
  | JSNumR.fin a => JSNumR.fin (-a)
  | JSNumR.posInf => JSNumR.negInf
  | JSNumR.negInf => JSNumR.posInf
  | JSNumR.nan => JSNumR.nan

/-- IEEE addition: `∞ + (−∞) = NaN`, `NaN` propagates. -/
noncomputable def jsAddR : JSNumR → JSNumR → JSNumR
  | JSNumR.fin a, JSNumR.fin b => JSNumR.fin (a + b)
  | JSNumR.posInf, JSNumR.negInf => JSNumR.nan
  | JSNumR.negInf, JSNumR.posInf => JSNumR.nan
  | JSNumR.posInf, JSNumR.fin _ => JSNumR.posInf
  | JSNumR.fin _, JSNumR.posInf => JSNumR.posInf
  | JSNumR.posInf, JSNumR.posInf => JSNumR.posInf
  | JSNumR.negInf, JSNumR.fin _ => JSNumR.negInf
  | JSNumR.fin _, JSNumR.negInf => JSNumR.negInf
  | JSNumR.negInf, JSNumR.negInf => JSNumR.negInf
  | JSNumR.nan, _ => JSNumR.nan
  | _, JSNumR.nan => JSNumR.nan

/-- IEEE subtraction, `a − b = a + (−b)`. -/
noncomputable def jsSubR (a b : JSNumR) : JSNumR := jsAddR a (jsNegR b)

/-- IEEE multiplication: `0 × ∞ = NaN`, sign rules for infinities. -/
noncomputable def jsMulR : JSNumR → JSNumR → JSNumR
  | JSNumR.fin a, JSNumR.fin b => JSNumR.fin (a * b)
  | JSNumR.fin a, JSNumR.posInf =>
      if 0 < a then JSNumR.posInf else if a < 0 then JSNumR.negInf else JSNumR.nan
  | JSNumR.fin a, JSNumR.negInf =>
      if 0 < a then JSNumR.negInf else if a < 0 then JSNumR.posInf else JSNumR.nan
  | JSNumR.posInf, JSNumR.fin b =>
      if 0 < b then JSNumR.posInf else if b < 0 then JSNumR.negInf else JSNumR.nan
  | JSNumR.negInf, JSNumR.fin b =>
      if 0 < b then JSNumR.negInf else if b < 0 then JSNumR.posInf else JSNumR.nan
  | JSNumR.posInf, JSNumR.posInf => JSNumR.posInf
  | JSNumR.posInf, JSNumR.negInf => JSNumR.negInf
  | JSNumR.negInf, JSNumR.posInf => JSNumR.negInf
  | JSNumR.negInf, JSNumR.negInf => JSNumR.posInf
  | JSNumR.nan, _ => JSNumR.nan
  | _, JSNumR.nan => JSNumR.nan

/-- IEEE division (positive-zero denominators, as arising from `a − a`):
`x/0` is `±∞` by the sign of `x` and `0/0 = NaN`; `∞/∞ = NaN`. -/
noncomputable def jsDivR : JSNumR → JSNumR → JSNumR
  | JSNumR.fin a, JSNumR.fin b =>
      if b ≠ 0 then JSNumR.fin (a / b)
      else if 0 < a then JSNumR.posInf
      else if a < 0 then JSNumR.negInf
      else JSNumR.nan
  | JSNumR.fin _, JSNumR.posInf => JSNumR.fin 0
  | JSNumR.fin _, JSNumR.negInf => JSNumR.fin 0
  | JSNumR.posInf, JSNumR.fin b => if b < 0 then JSNumR.negInf else JSNumR.posInf
  | JSNumR.negInf, JSNumR.fin b => if b < 0 then JSNumR.posInf else JSNumR.negInf
  | JSNumR.nan, _ => JSNumR.nan
  | _, _ => JSNumR.nan

/-- `Math.abs`. -/
noncomputable def jsAbsR : JSNumR → JSNumR
  | JSNumR.fin a => JSNumR.fin |a|
  | JSNumR.posInf => JSNumR.posInf
  | JSNumR.negInf => JSNumR.posInf
  | JSNumR.nan => JSNumR.nan

/-- `Math.sqrt`: `NaN` on negative arguments, `∞` on `∞`. -/
noncomputable def jsSqrtR : JSNumR → JSNumR
  | JSNumR.fin a => if a < 0 then JSNumR.nan else JSNumR.fin (Real.sqrt a)
  | JSNumR.posInf => JSNumR.posInf
  | JSNumR.negInf => JSNumR.nan
  | JSNumR.nan => JSNumR.nan

/-- `Number.parseFloat(x.toFixed(3))`: 3-decimal rounding on finite values,
the identity on `±Infinity` and `NaN` (`toFixed` prints them verbatim). -/
noncomputable def jsRound3R : JSNumR → JSNumR
  | JSNumR.fin a => JSNumR.fin (roundToR 3 a)
  | JSNumR.posInf => JSNumR.posInf
  | JSNumR.negInf => JSNumR.negInf
  | JSNumR.nan => JSNumR.nan

/-- The JS `>` comparison: false whenever either side is `NaN`. -/
def jsGt : JSNumR → JSNumR → Prop
  | JSNumR.fin a, JSNumR.fin b => b < a
  | JSNumR.posInf, JSNumR.fin _ => True
  | JSNumR.posInf, JSNumR.negInf => True
  | JSNumR.fin _, JSNumR.negInf => True
  | _, _ => False

noncomputable instance (a b : JSNumR) : Decidable (jsGt a b) := Classical.dec _

/-- The JS `>=` comparison: false whenever either side is `NaN`. -/
def jsGe : JSNumR → JSNumR → Prop
  | JSNumR.fin a, JSNumR.fin b => b ≤ a
  | JSNumR.posInf, JSNumR.fin _ => True
  | JSNumR.posInf, JSNumR.posInf => True
  | JSNumR.posInf, JSNumR.negInf => True
  | JSNumR.fin _, JSNumR.negInf => True
  | JSNumR.negInf, JSNumR.negInf => True
  | _, _ => False

/-- `MapScale` over IEEE values. -/
structure JSMapScaleR where
  degreePerUnitX : JSNumR
  degreePerUnitY : JSNumR

/-- `GPSPoint` over IEEE values. -/
structure JSGPSPointR where
  longitude : JSNumR
  latitude : JSNumR

/-- `CalibrationResult` over IEEE values. -/
structure JSCalibrationResultR where
  maxErrorX : JSNumR
  maxErrorY : JSNumR
  origin : JSGPSPointR
  opposite : JSGPSPointR

/-- Error-loop state over IEEE values. -/
structure JSMaxDiffStateR where
  maxX : JSNumR
  maxY : JSNumR
  idxX : ℤ
  idxY : ℤ

/-- `calculateScale` with IEEE arithmetic (inputs are plain finite
numbers). -/
noncomputable def calculateScaleR (p1 p2 : CalibratedPoint) : JSMapScaleR :=
  let deltaLatitude := jsSubR (JSNumR.fin (p1.gps.latitude : ℝ))
    (JSNumR.fin (p2.gps.latitude : ℝ))
  let deltaYInUnits := jsSubR (JSNumR.fin (p1.cartesian.y : ℝ))
    (JSNumR.fin (p2.cartesian.y : ℝ))
  let degreePerUnitY := jsDivR deltaLatitude deltaYInUnits
  let deltaLongitude := jsSubR (JSNumR.fin (p1.gps.longitude : ℝ))
    (JSNumR.fin (p2.gps.longitude : ℝ))
  let deltaXInUnits := jsSubR (JSNumR.fin (p1.cartesian.x : ℝ))
    (JSNumR.fin (p2.cartesian.x : ℝ))
  let degreePerUnitX := jsDivR deltaLongitude deltaXInUnits
  { degreePerUnitX := degreePerUnitX, degreePerUnitY := degreePerUnitY }

/-- The pair loop over IEEE values. -/
noncomputable def calibrateScalesR (calibrationSet : List CalibratedPoint) :
    List JSMapScaleR :=
  (List.range (calibrationSet.length - 1)).flatMap fun i =>
    (List.range' (i + 1) (calibrationSet.length - (i + 1))).map fun j =>
      calculateScaleR (calibrationSet.getD i default) (calibrationSet.getD j default)

/-- The averaging step over IEEE values. -/
noncomputable def calibrateAvgR (calibrationSet : List CalibratedPoint) : JSMapScaleR :=
  let scales := calibrateScalesR calibrationSet
  let XScaleSum := scales.foldl (fun acc sc => jsAddR acc sc.degreePerUnitX)
    (JSNumR.fin 0)
  let YScaleSum := scales.foldl (fun acc sc => jsAddR acc sc.degreePerUnitY)
    (JSNumR.fin 0)
  let numDataPoints : ℝ := scales.length
  { degreePerUnitX := jsDivR XScaleSum (JSNumR.fin numDataPoints),
    degreePerUnitY := jsDivR YScaleSum (JSNumR.fin numDataPoints) }

/-- The origin back-solve over IEEE values. -/
noncomputable def calibrateOriginR (calibrationSet : List CalibratedPoint) :
    JSGPSPointR :=
  let avg := calibrateAvgR calibrationSet
  let p0 := calibrationSet.getD 0 default
  { latitude := jsSubR (JSNumR.fin (p0.gps.latitude : ℝ))
      (jsMulR avg.degreePerUnitY (JSNumR.fin (p0.cartesian.y : ℝ))),
    longitude := jsSubR (JSNumR.fin (p0.gps.longitude : ℝ))
      (jsMulR avg.degreePerUnitX (JSNumR.fin (p0.cartesian.x : ℝ))) }

/-- The opposite corner over IEEE values. -/
noncomputable def calibrateOppositeR (calibrationSet : List CalibratedPoint)
    (imageDimensions : Dimensions) : JSGPSPointR :=
  let nd := normalizeImageDimensions imageDimensions
  let avg := calibrateAvgR calibrationSet
  let origin := calibrateOriginR calibrationSet
  { latitude := jsAddR origin.latitude
      (jsMulR (JSNumR.fin (nd.height : ℝ)) avg.degreePerUnitY),
    longitude := jsAddR origin.longitude
      (jsMulR (JSNumR.fin (nd.width : ℝ)) avg.degreePerUnitX) }

/-- `Math.sqrt(Math.pow(w·avgX, 2) + Math.pow(h·avgY, 2))` over IEEE
values (`Math.pow(x, 2)` is `x·x` on these values). -/
noncomputable def diagonalR (calibrationSet : List CalibratedPoint)
    (imageDimensions : Dimensions) : JSNumR :=
  let nd := normalizeImageDimensions imageDimensions
  let avg := calibrateAvgR calibrationSet
  jsSqrtR (jsAddR
    (jsMulR (jsMulR (JSNumR.fin (nd.width : ℝ)) avg.degreePerUnitX)
      (jsMulR (JSNumR.fin (nd.width : ℝ)) avg.degreePerUnitX))
    (jsMulR (jsMulR (JSNumR.fin (nd.height : ℝ)) avg.degreePerUnitY)
      (jsMulR (JSNumR.fin (nd.height : ℝ)) avg.degreePerUnitY)))

/-- One error-loop iteration over IEEE values (`NaN` comparisons are
false, so a `NaN` difference never updates the maximum). -/
noncomputable def maxDiffStepR (scales : List JSMapScaleR) (avg : JSMapScaleR)
    (acc : Option JSMaxDiffStateR) (i : ℕ) : Option JSMaxDiffStateR := do
  let st ← acc
  let sc ← scales[i]?
  let XScaleDifference := jsAbsR (jsSubR sc.degreePerUnitX avg.degreePerUnitX)
  let YScaleDifference := jsAbsR (jsSubR sc.degreePerUnitY avg.degreePerUnitY)
  let st1 := if jsGt XScaleDifference st.maxX then
      { st with maxX := XScaleDifference, idxX := (i : ℤ) } else st
  pure (if jsGt YScaleDifference st1.maxY then
      { st1 with maxY := YScaleDifference, idxY := (i : ℤ) } else st1)

/-- The error loop over IEEE values. -/
noncomputable def maxDiffLoopR (scales : List JSMapScaleR) (avg : JSMapScaleR)
    (n : ℕ) : Option JSMaxDiffStateR :=
  (List.range n).foldl (maxDiffStepR scales avg)
    (some { maxX := JSNumR.fin 0, maxY := JSNumR.fin 0, idxX := -1, idxY := -1 })

/-- The full `calibrate` over IEEE values. -/
noncomputable def calibrateR (calibrationSet : List CalibratedPoint)
    (imageDimensions : Dimensions) : Option JSCalibrationResultR :=
  if calibrationSet.isEmpty then none
  else
    (maxDiffLoopR (calibrateScalesR calibrationSet) (calibrateAvgR calibrationSet)
        calibrationSet.length).map fun st =>
      { maxErrorX := jsRound3R (jsMulR (jsDivR st.maxX
          (diagonalR calibrationSet imageDimensions)) (JSNumR.fin 100)),
        maxErrorY := jsRound3R (jsMulR (jsDivR st.maxY
          (diagonalR calibrationSet imageDimensions)) (JSNumR.fin 100)),
        origin := calibrateOriginR calibrationSet,
        opposite := calibrateOppositeR calibrationSet imageDimensions }

def degPairSet : List CalibratedPoint :=
  [ { cartesian := { x := 0, y := 0 }, gps := { longitude := 0, latitude := 0 } },
    { cartesian := { x := 0, y := 1 }, gps := { longitude := 1, latitude := 1 } },
    { cartesian := { x := 5, y := 2 }, gps := { longitude := 2, latitude := 2 } } ]

def flatGPSSet : List CalibratedPoint :=
  [ { cartesian := { x := 0, y := 0 }, gps := { longitude := 0, latitude := 0 } },
    { cartesian := { x := 1, y := 1 }, gps := { longitude := 0, latitude := 0 } },
    { cartesian := { x := 2, y := 2 }, gps := { longitude := 0, latitude := 0 } } ]

theorem flat_scalesR : calibrateScalesR flatGPSSet
    = [ { degreePerUnitX := JSNumR.fin 0, degreePerUnitY := JSNumR.fin 0 },
        { degreePerUnitX := JSNumR.fin 0, degreePerUnitY := JSNumR.fin 0 },
        { degreePerUnitX := JSNumR.fin 0, degreePerUnitY := JSNumR.fin 0 } ] := by
  norm_num [calibrateScalesR, calculateScaleR, flatGPSSet, List.range_succ,
    List.range', jsSubR, jsNegR, jsAddR, jsDivR, JSMapScaleR.mk.injEq,
    JSNumR.fin.injEq]

theorem deg_scalesR : calibrateScalesR degPairSet
    = [ { degreePerUnitX := JSNumR.negInf, degreePerUnitY := JSNumR.fin 1 },
        { degreePerUnitX := JSNumR.fin (2/5), degreePerUnitY := JSNumR.fin 1 },
        { degreePerUnitX := JSNumR.fin (1/5), degreePerUnitY := JSNumR.fin 1 } ] := by
  norm_num [calibrateScalesR, calculateScaleR, degPairSet, List.range_succ,
    List.range', jsSubR, jsNegR, jsAddR, jsDivR, JSMapScaleR.mk.injEq,
    JSNumR.fin.injEq]

theorem flat_avgR : calibrateAvgR flatGPSSet
    = { degreePerUnitX := JSNumR.fin 0, degreePerUnitY := JSNumR.fin 0 } := by
  rw [calibrateAvgR, flat_scalesR]
  norm_num [jsAddR, jsDivR, flat_scalesR, JSMapScaleR.mk.injEq, JSNumR.fin.injEq]

theorem deg_avgR : calibrateAvgR degPairSet
    = { degreePerUnitX := JSNumR.negInf, degreePerUnitY := JSNumR.fin 1 } := by
  rw [calibrateAvgR, deg_scalesR]
  norm_num [jsAddR, jsDivR, deg_scalesR, JSMapScaleR.mk.injEq, JSNumR.fin.injEq]

theorem flat_diagR : diagonalR flatGPSSet c8dims = JSNumR.fin 0 := by
  rw [diagonalR, flat_avgR]
  norm_num [c8dims, normalizeImageDimensions, jsMulR, jsAddR, jsSqrtR,
    Real.sqrt_zero, JSNumR.fin.injEq]

theorem deg_diagR : diagonalR degPairSet c8dims = JSNumR.posInf := by
  rw [diagonalR, deg_avgR]
  norm_num [c8dims, normalizeImageDimensions, jsMulR, jsAddR, jsSqrtR]

theorem flat_loopR :
    maxDiffLoopR (calibrateScalesR flatGPSSet) (calibrateAvgR flatGPSSet)
      flatGPSSet.length
    = some { maxX := JSNumR.fin 0, maxY := JSNumR.fin 0, idxX := -1, idxY := -1 } := by
  rw [flat_scalesR, flat_avgR]
  norm_num [maxDiffLoopR, maxDiffStepR, flatGPSSet, List.range_succ, jsAbsR,
    jsSubR, jsNegR, jsAddR, jsGt]

theorem deg_loopR :
    maxDiffLoopR (calibrateScalesR degPairSet) (calibrateAvgR degPairSet)
      degPairSet.length
    = some { maxX := JSNumR.posInf, maxY := JSNumR.fin 0, idxX := 1, idxY := -1 } := by
  rw [deg_scalesR, deg_avgR]
  norm_num [maxDiffLoopR, maxDiffStepR, degPairSet, List.range_succ, jsAbsR,
    jsSubR, jsNegR, jsAddR, jsGt]

/-- C10 counterexample: two calibration sets that `calibrate` accepts
(n = 3, every access in bounds, a result is returned) yet whose returned
`maxError.x` is `NaN` — and `NaN ≥ 0` is false in JS.  First a set with a
degenerate pair (two points share cartesian `x`, longitudes differ):
`degreePerUnitX = −∞` propagates to `avgX = −∞`, `diagonal = ∞`, the loop
records `maxXDiff = |finite − (−∞)| = ∞`, and `∞/∞·100` is `NaN`.  Second
a set of three points with identical GPS: all scales are 0, the diagonal
is 0, and `0/0·100` is `NaN`. -/
theorem claim_C10_counterexample :
    ((calibrateR degPairSet c8dims).map fun r => r.maxErrorX) = some JSNumR.nan
    ∧ ((calibrateR flatGPSSet c8dims).map fun r => r.maxErrorX) = some JSNumR.nan
    ∧ ¬ jsGe JSNumR.nan (JSNumR.fin 0) := by
  refine ⟨?_, ?_, by simp [jsGe]⟩
  · rw [calibrateR, deg_loopR]
    simp only [show degPairSet.isEmpty = false from rfl, Bool.false_eq_true,
      if_false, Option.map_some', deg_diagR]
    simp [jsDivR, jsMulR, jsRound3R]
  · rw [calibrateR, flat_loopR]
    simp only [show flatGPSSet.isEmpty = false from rfl, Bool.false_eq_true,
      if_false, Option.map_some', flat_diagR]
    norm_num [jsDivR, jsMulR, jsRound3R]

/-- C10 amended: for calibration sets that `calibrate` completes on
(n ≥ 3) with positive dimensions, pairwise-distinct cartesian coordinates
on both axes (no degenerate pair — under which every pairwise scale and
every downstream value is finite, so the rational model is faithful), and
a nonzero geographic diagonal, both returned error percentages are ≥ 0,
and for a noise-free set (all pairwise scales equal) both are exactly 0.
Dropping the nondegeneracy or nonzero-diagonal conditions the program
instead returns `NaN` error values, which are not ≥ 0 (see the
counterexample). -/
theorem claim_C10 (s : List CalibratedPoint) (dims : Dimensions)
    (h3 : 3 ≤ s.length) (hw : 0 < dims.width) (hh : 0 < dims.height)
    (hnd : ∀ j < s.length, ∀ i < j,
      (s.getD i default).cartesian.x ≠ (s.getD j default).cartesian.x
      ∧ (s.getD i default).cartesian.y ≠ (s.getD j default).cartesian.y)
    (hd : 0 < diagonalSq s dims) :
    ∀ r ∈ calibrate s dims,
      (0 ≤ r.maxErrorX ∧ 0 ≤ r.maxErrorY)
      ∧ ((∃ c, ∀ sc ∈ calibrateScales s, sc = c) →
          r.maxErrorX = 0 ∧ r.maxErrorY = 0) := by
  intro r hr
  obtain ⟨st, hst, hx, hy, heq⟩ := calibrate_eq_some s dims h3
  rw [heq] at hr
  simp only [Option.mem_def, Option.some.injEq] at hr
  subst hr
  have hX0 : (0 : ℚ) ≤ st.maxX := by
    rw [hx, specMaxXDiff]
    exact foldl_max_nonneg _ 0 le_rfl
  have hY0 : (0 : ℚ) ≤ st.maxY := by
    rw [hy, specMaxYDiff]
    exact foldl_max_nonneg _ 0 le_rfl
  constructor
  · constructor
    · apply roundToR_nonneg
      apply mul_nonneg _ (by norm_num)
      exact div_nonneg (by exact_mod_cast hX0) (Real.sqrt_nonneg _)
    · apply roundToR_nonneg
      apply mul_nonneg _ (by norm_num)
      exact div_nonneg (by exact_mod_cast hY0) (Real.sqrt_nonneg _)
  · rintro ⟨c, hc⟩
    have hlen0 : (calibrateScales s).length ≠ 0 := by
      rw [calibrateScales_length]
      have := le_choose_two s.length h3
      omega
    have havg := calibrateAvg_of_const s c hlen0 hc
    have hzX : ∀ x ∈ (List.range s.length).map (fun i =>
        |((calibrateScales s).getD i default).degreePerUnitX
          - (calibrateAvg s).degreePerUnitX|), x = 0 := by
      intro x hmx
      obtain ⟨i, hi, rfl⟩ := List.mem_map.mp hmx
      have hib : i < (calibrateScales s).length := by
        rw [calibrateScales_length]
        exact lt_of_lt_of_le (List.mem_range.mp hi) (le_choose_two _ h3)
      rw [List.getD_eq_getElem _ _ hib, hc _ (List.getElem_mem hib), havg]
      simp
    have hzY : ∀ x ∈ (List.range s.length).map (fun i =>
        |((calibrateScales s).getD i default).degreePerUnitY
          - (calibrateAvg s).degreePerUnitY|), x = 0 := by
      intro x hmx
      obtain ⟨i, hi, rfl⟩ := List.mem_map.mp hmx
      have hib : i < (calibrateScales s).length := by
        rw [calibrateScales_length]
        exact lt_of_lt_of_le (List.mem_range.mp hi) (le_choose_two _ h3)
      rw [List.getD_eq_getElem _ _ hib, hc _ (List.getElem_mem hib), havg]
      simp
    have hx0 : st.maxX = 0 := by
      rw [hx, specMaxXDiff]
      exact foldl_max_eq_zero _ hzX
    have hy0 : st.maxY = 0 := by
      rw [hy, specMaxYDiff]
      exact foldl_max_eq_zero _ hzY
    constructor
    · rw [hx0]
      simp [roundToR_zero]
    · rw [hy0]
      simp [roundToR_zero]

def nfset : List CalibratedPoint :=
  [ { cartesian := { x := 0, y := 0 }, gps := { longitude := 0, latitude := 0 } },
    { cartesian := { x := 1, y := 1 }, gps := { longitude := 1/100, latitude := 1/100 } },
    { cartesian := { x := 2, y := 2 }, gps := { longitude := 2/100, latitude := 2/100 } } ]

/-- Witness for C10 (amended) at a noise-free collinear 3-point set with
positive dimensions, pairwise-distinct cartesian coordinates and positive
diagonal: the returned error fields, instantiated explicitly, are
nonnegative and equal to zero. -/
theorem claim_C10_witness :
    0 ≤ roundToR 3 ((specMaxXDiff nfset : ℝ) / diagonal nfset c8dims * 100)
    ∧ 0 ≤ roundToR 3 ((specMaxYDiff nfset : ℝ) / diagonal nfset c8dims * 100)
    ∧ roundToR 3 ((specMaxXDiff nfset : ℝ) / diagonal nfset c8dims * 100) = 0
    ∧ roundToR 3 ((specMaxYDiff nfset : ℝ) / diagonal nfset c8dims * 100) = 0 := by
  obtain ⟨st, hst, hx, hy, heq⟩ := calibrate_eq_some nfset c8dims (by decide)
  have h := claim_C10 nfset c8dims (by decide)
    (by norm_num [c8dims]) (by norm_num [c8dims]) (by decide)
    (by norm_num [diagonalSq, calibrateAvg, calibrateScales, calculateScale,
      nfset, c8dims, normalizeImageDimensions, List.range_succ, List.range'])
    _ (Option.mem_def.mpr heq)
  rw [hx, hy] at h
  have hlist : calibrateScales nfset
      = [ { degreePerUnitX := 1/100, degreePerUnitY := 1/100 },
          { degreePerUnitX := 1/100, degreePerUnitY := 1/100 },
          { degreePerUnitX := 1/100, degreePerUnitY := 1/100 } ] := by
    norm_num [calibrateScales, calculateScale, nfset, List.range_succ,
      List.range', MapScale.mk.injEq]
  have hconst : ∃ c, ∀ sc ∈ calibrateScales nfset, sc = c := by
    refine ⟨{ degreePerUnitX := 1/100, degreePerUnitY := 1/100 }, ?_⟩
    intro sc hsc
    rw [hlist] at hsc
    simp only [List.mem_cons, List.not_mem_nil, or_false] at hsc
    rcases hsc with h1 | h1 | h1 <;> exact h1
  exact ⟨h.1.1, h.1.2, (h.2 hconst).1, (h.2 hconst).2⟩
